import Mathlib

/-!
Verification of the pending-state synchronization engine
(`crates/pathfinder/src/state/sync/pending.rs`, function `poll_pending`).

The loop body of `poll_pending` is embedded as a pure step function over a
per-cycle environment recording what the external world does during that
iteration: the gateway response to the block query, the time at which the
state-update query future resolves together with its result, the outcome of
the class-download step, and whether the event channel still has a receiver.
A whole polling session is the fold of this step function over a list of
per-cycle environments.  The `emitted` payload of a step tracks exactly the
`SyncEvent::Pending` messages that the loop body sends on `tx_event`.
-/

deriving instance DecidableEq for Except

namespace PendingSync

/-- Field elements: block hashes and state commitments are modelled as `Nat`. -/
abbrev Felt := Nat

abbrev BlockHash := Felt

abbrev StateCommitment := Felt

/-- The parts of `starknet_gateway_types::reply::state_update::StateDiff`
relevant here (the class-related lists that `download_new_classes` walks);
`poll_pending` itself only passes the diff through. -/
structure StateDiff where
  declared_classes : List Felt
  replaced_classes : List Felt
  deriving DecidableEq

/-- The fields of `starknet_gateway_types::reply::Block` that `poll_pending`
reads: `block_hash` (line 39) and `starknet_version` (line 100), plus the
lineage fields of the struct. -/
structure Block where
  block_hash : BlockHash
  parent_block_hash : BlockHash
  state_commitment : StateCommitment
  starknet_version : Option String
  deriving DecidableEq

/-- The fields of `starknet_gateway_types::reply::PendingBlock` that
`poll_pending` reads: `parent_hash` (line 49) and `starknet_version`
(line 100). -/
structure PendingBlock where
  parent_hash : BlockHash
  starknet_version : Option String
  deriving DecidableEq

/-- `starknet_gateway_types::reply::MaybePendingBlock`. -/
inductive MaybePendingBlock
  | block (b : Block)
  | pending (p : PendingBlock)
  deriving DecidableEq

/-- `starknet_gateway_types::reply::StateUpdate` (a full state update). -/
structure StateUpdate where
  block_hash : BlockHash
  new_root : StateCommitment
  old_root : StateCommitment
  state_diff : StateDiff
  deriving DecidableEq

/-- `starknet_gateway_types::reply::PendingStateUpdate`:
`old_root` is the parent state commitment the pending update claims to
extend (read at line 85), `state_diff` is handed to the class download at
line 96. -/
structure PendingStateUpdate where
  old_root : StateCommitment
  state_diff : StateDiff
  deriving DecidableEq

/-- `starknet_gateway_types::reply::MaybePendingStateUpdate`. -/
inductive MaybePendingStateUpdate
  | stateUpdate (s : StateUpdate)
  | pending (p : PendingStateUpdate)
  deriving DecidableEq

/-- Transport or deserialization errors of the gateway client, opaque to
`poll_pending` (they are wrapped with `anyhow::Context` and propagated). -/
abbrev GatewayError := String

/-- The caller-supplied head: the tuple
`(pathfinder_common::BlockHash, pathfinder_common::StateCommitment)`
parameter of `poll_pending`.  `head.0` is `block_hash`, `head.1` is
`state_commitment`. -/
structure Head where
  block_hash : BlockHash
  state_commitment : StateCommitment
  deriving DecidableEq

/-- What the external world does during one iteration of the loop:
* `blockResponse` — result of `sequencer.block(BlockId::Pending)` (line 34);
* `stateUpdateResolveSeconds` — the time, in seconds, at which the future
  `sequencer.state_update(BlockId::Pending)` resolves (line 67);
* `stateUpdateResponse` — the value it resolves with;
* `classDownload` — result of `l2::download_new_classes` (line 95);
* `sendOk` — whether `tx_event.send` succeeds, i.e. whether the receiver is
  still alive (line 107). -/
structure CycleEnv where
  blockResponse : Except GatewayError MaybePendingBlock
  stateUpdateResolveSeconds : Nat
  stateUpdateResponse : Except GatewayError MaybePendingStateUpdate
  classDownload : Except String Unit
  sendOk : Bool
  deriving DecidableEq

/-- The error cases with which `poll_pending` can fail, one per
`.context(...)` site in the loop body. -/
inductive PollError
  | downloadPendingBlock (e : GatewayError)
  | downloadingPendingStateUpdate (e : GatewayError)
  | handlingNewlyDeclaredClasses (e : String)
  | eventChannelClosed
  deriving DecidableEq

/-- Outcome of one iteration of the loop body:
* `again o` — the iteration reaches a `continue` / end of loop body and the
  loop sleeps `poll_interval` and runs again; `o` is the
  `SyncEvent::Pending` payload sent on `tx_event` during the iteration, if
  any;
* `done r` — the function returns `Ok r`;
* `fail e` — the function returns `Err` at the site described by `e`. -/
inductive StepResult
  | again (emitted : Option (PendingBlock × PendingStateUpdate))
  | done (r : Option Block × Option StateUpdate)
  | fail (e : PollError)
  deriving DecidableEq

/-- The timeout on the pending state-update query:
`std::time::Duration::from_secs(3 * 60)` at line 66. -/
def pendingStateUpdateTimeoutSecs : Nat := 3 * 60

/-- One iteration of the `loop` body of `poll_pending` (lines 31-113).
The state-update query resolves in time iff its future resolves strictly
before the 3-minute deadline; otherwise `tokio::time::timeout` yields
`Err(_timeout)` (line 72). -/
def pollPendingStep (head : Head) (env : CycleEnv) : StepResult :=
  match env.blockResponse with
  | .error e => .fail (.downloadPendingBlock e)
  | .ok (.block b) =>
    if b.block_hash = head.block_hash then
      -- Sequencer `pending` may return the latest full block for quite some
      -- time, so ignore it (lines 39-44): sleep and continue.
      .again none
    else
      -- Full block with another hash: exit pending mode (lines 45-48).
      .done (some b, none)
  | .ok (.pending pending) =>
    if pending.parent_hash ≠ head.block_hash then
      -- Parent hash mismatch: exit pending mode (lines 49-55).
      .done (none, none)
    else if pendingStateUpdateTimeoutSecs ≤ env.stateUpdateResolveSeconds then
      -- The state-update query timed out (lines 72-75).
      .done (none, none)
    else
      match env.stateUpdateResponse with
      | .error e => .fail (.downloadingPendingStateUpdate e)
      | .ok (.stateUpdate s) =>
        -- Full state update: exit pending mode (lines 80-83).
        .done (none, some s)
      | .ok (.pending psu) =>
        if psu.old_root ≠ head.state_commitment then
          -- Old root mismatch: exit pending mode (lines 85-88).
          .done (none, none)
        else
          match env.classDownload with
          | .error e => .fail (.handlingNewlyDeclaredClasses e)
          | .ok _ =>
            if env.sendOk then
              -- Emit new block (lines 107-110), sleep, repeat.
              .again (some (pending, psu))
            else
              .fail .eventChannelClosed

/-- Whether the iteration reaches the state-update query at line 65: only
after the block query returned a pending block whose parent hash matches the
head. -/
def cycleQueriesStateUpdate (head : Head) (env : CycleEnv) : Bool :=
  match env.blockResponse with
  | .ok (.pending p) => p.parent_hash == head.block_hash
  | _ => false

/-- Whether the iteration reaches the `tx_event.send` at line 107: only
after the continuity checks passed and the class download returned
successfully. -/
def cycleReachesSend (head : Head) (env : CycleEnv) : Bool :=
  match env.blockResponse with
  | .ok (.pending p) =>
    p.parent_hash == head.block_hash &&
    decide (env.stateUpdateResolveSeconds < pendingStateUpdateTimeoutSecs) &&
    (match env.stateUpdateResponse with
     | .ok (.pending psu) =>
       psu.old_root == head.state_commitment &&
       (match env.classDownload with
        | .ok _ => true
        | .error _ => false)
     | _ => false)
  | _ => false

/-- A whole polling session over a list of per-cycle environments.
Returns the list of `SyncEvent::Pending` payloads published, in order, and
the terminal outcome: `none` means the supplied environments ran out while
the loop was still going (no termination observed), `some (Except.ok r)`
means `poll_pending` returned `Ok r`, `some (Except.error e)` means it
returned `Err` at site `e`. -/
def pollPendingRun (head : Head) :
    List CycleEnv →
      List (PendingBlock × PendingStateUpdate) ×
        Option (Except PollError (Option Block × Option StateUpdate))
  | [] => ([], none)
  | env :: rest =>
    match pollPendingStep head env with
    | .again none => pollPendingRun head rest
    | .again (some ev) =>
      let r := pollPendingRun head rest
      (ev :: r.1, r.2)
    | .done res => ([], some (.ok res))
    | .fail e => ([], some (.error e))

/-! ### Example fixtures, mirroring the shapes used by the test module -/

def exDiff : StateDiff := ⟨[], []⟩

def exHead : Head := ⟨1, 2⟩

def exPending : PendingBlock := ⟨1, none⟩

def exPendingSU : PendingStateUpdate := ⟨2, exDiff⟩

def exGoodEnv : CycleEnv :=
  ⟨.ok (.pending exPending), 0, .ok (.pending exPendingSU), .ok (), true⟩

def exFullBlock : Block := ⟨5, 1, 2, none⟩

def exEchoBlock : Block := ⟨1, 0, 0, none⟩

def exEchoEnv : CycleEnv :=
  ⟨.ok (.block exEchoBlock), 0, .ok (.pending exPendingSU), .ok (), true⟩

def exTimeoutEnv : CycleEnv :=
  ⟨.ok (.pending exPending), 180, .ok (.pending exPendingSU), .ok (), true⟩

def exGatewayErrEnv : CycleEnv :=
  ⟨.ok (.pending exPending), 0, .error "boom", .ok (), true⟩

def exMismatchBlockEnv : CycleEnv :=
  ⟨.ok (.pending ⟨9, none⟩), 0, .ok (.pending exPendingSU), .ok (), true⟩

def exMismatchRootEnv : CycleEnv :=
  ⟨.ok (.pending exPending), 0, .ok (.pending ⟨9, exDiff⟩), .ok (), true⟩

def exNewBlockEnv : CycleEnv :=
  ⟨.ok (.block exFullBlock), 0, .ok (.pending exPendingSU), .ok (), true⟩

def exFullSU : StateUpdate := ⟨5, 7, 2, exDiff⟩

def exFullSUEnv : CycleEnv :=
  ⟨.ok (.pending exPending), 0, .ok (.stateUpdate exFullSU), .ok (), true⟩

def exClassFailEnv : CycleEnv :=
  ⟨.ok (.pending exPending), 0, .ok (.pending exPendingSU), .error "class fetch failed", true⟩

def exClosedEnv : CycleEnv :=
  ⟨.ok (.pending exPending), 0, .ok (.pending exPendingSU), .ok (), false⟩

/-! ### Unfolding lemmas for `pollPendingRun` -/

theorem run_nil (head : Head) : pollPendingRun head [] = ([], none) := rfl

theorem run_cons_again_none (head : Head) (env : CycleEnv) (rest : List CycleEnv)
    (h : pollPendingStep head env = .again none) :
    pollPendingRun head (env :: rest) = pollPendingRun head rest := by
  simp [pollPendingRun, h]

theorem run_cons_again_some (head : Head) (env : CycleEnv) (rest : List CycleEnv)
    (ev : PendingBlock × PendingStateUpdate)
    (h : pollPendingStep head env = .again (some ev)) :
    pollPendingRun head (env :: rest) =
      (ev :: (pollPendingRun head rest).1, (pollPendingRun head rest).2) := by
  simp [pollPendingRun, h]

theorem run_cons_done (head : Head) (env : CycleEnv) (rest : List CycleEnv)
    (res : Option Block × Option StateUpdate)
    (h : pollPendingStep head env = .done res) :
    pollPendingRun head (env :: rest) = ([], some (.ok res)) := by
  simp [pollPendingRun, h]

theorem run_cons_fail (head : Head) (env : CycleEnv) (rest : List CycleEnv)
    (e : PollError) (h : pollPendingStep head env = .fail e) :
    pollPendingRun head (env :: rest) = ([], some (.error e)) := by
  simp [pollPendingRun, h]

/-! ### Step-level structural lemmas -/

/-- Whenever one iteration publishes a pending event, both continuity
equalities hold for its payload. -/
theorem step_again_some_continuity (head : Head) (env : CycleEnv)
    (pb : PendingBlock) (psu : PendingStateUpdate)
    (h : pollPendingStep head env = .again (some (pb, psu))) :
    pb.parent_hash = head.block_hash ∧ psu.old_root = head.state_commitment := by
  unfold pollPendingStep at h
  repeat' split at h
  all_goals simp_all

/-- Every `done` outcome of one iteration has at most one `some` component. -/
theorem step_done_shape (head : Head) (env : CycleEnv)
    (res : Option Block × Option StateUpdate)
    (h : pollPendingStep head env = .done res) :
    res.1 = none ∨ res.2 = none := by
  unfold pollPendingStep at h
  repeat' split at h
  all_goals first
  | (injection h with h; subst h; simp)
  | injection h

/-- Every published event of a run satisfies both continuity equalities. -/
theorem run_events_continuity (head : Head) :
    ∀ (envs : List CycleEnv) (ev : PendingBlock × PendingStateUpdate),
      ev ∈ (pollPendingRun head envs).1 →
      ev.1.parent_hash = head.block_hash ∧
        ev.2.old_root = head.state_commitment := by
  intro envs
  induction envs with
  | nil => intro ev hmem; simp [pollPendingRun] at hmem
  | cons env rest ih =>
    intro ev hmem
    rcases hstep : pollPendingStep head env with o | res | e
    · rcases o with _ | ev'
      · rw [run_cons_again_none head env rest hstep] at hmem
        exact ih ev hmem
      · rw [run_cons_again_some head env rest ev' hstep] at hmem
        rcases List.mem_cons.mp hmem with rfl | hmem'
        · obtain ⟨pb, psu⟩ := ev
          exact step_again_some_continuity head env pb psu hstep
        · exact ih ev hmem'
    · rw [run_cons_done head env rest res hstep] at hmem
      simp at hmem
    · rw [run_cons_fail head env rest e hstep] at hmem
      simp at hmem

/-- Every `Ok` outcome of a run has at most one `some` component. -/
theorem run_ok_shape (head : Head) :
    ∀ (envs : List CycleEnv) (res : Option Block × Option StateUpdate),
      (pollPendingRun head envs).2 = some (.ok res) →
      res.1 = none ∨ res.2 = none := by
  intro envs
  induction envs with
  | nil => intro res h; simp [pollPendingRun] at h
  | cons env rest ih =>
    intro res h
    rcases hstep : pollPendingStep head env with o | r | e
    · rcases o with _ | ev
      · rw [run_cons_again_none head env rest hstep] at h
        exact ih res h
      · rw [run_cons_again_some head env rest ev hstep] at h
        exact ih res h
    · rw [run_cons_done head env rest r hstep] at h
      simp only [Option.some.injEq, Except.ok.injEq] at h
      exact h ▸ step_done_shape head env r hstep
    · rw [run_cons_fail head env rest e hstep] at h
      simp at h

/-- Evaluation of one iteration on a continuity-satisfying pending pair with
successful class download and an open channel: it publishes the pair. -/
theorem step_pending_extension (head : Head) (env : CycleEnv)
    (P : PendingBlock) (U : PendingStateUpdate)
    (hb : env.blockResponse = .ok (.pending P))
    (hph : P.parent_hash = head.block_hash)
    (ht : env.stateUpdateResolveSeconds < pendingStateUpdateTimeoutSecs)
    (hs : env.stateUpdateResponse = .ok (.pending U))
    (hor : U.old_root = head.state_commitment)
    (hcd : env.classDownload = .ok ())
    (hsend : env.sendOk = true) :
    pollPendingStep head env = .again (some (P, U)) := by
  have ht' : ¬ pendingStateUpdateTimeoutSecs ≤ env.stateUpdateResolveSeconds :=
    Nat.not_le.mpr ht
  simp [pollPendingStep, hb, hph, ht', hs, hor, hcd, hsend]

/-! ### The claims -/

/-- Claim C1: every `SyncEvent::Pending(block, state_update)` that
`poll_pending` publishes on the event sink satisfies both
`block.parent_hash = head.block_hash` and
`state_update.old_root = head.state_commitment`; an event is never published
when only one of the two equalities holds. -/
theorem claim1_pending_event_continuity (head : Head) (envs : List CycleEnv)
    (ev : PendingBlock × PendingStateUpdate)
    (hmem : ev ∈ (pollPendingRun head envs).1) :
    ev.1.parent_hash = head.block_hash ∧
      ev.2.old_root = head.state_commitment :=
  run_events_continuity head envs ev hmem

theorem claim1_pending_event_continuity_witness :
    (exPending, exPendingSU) ∈ (pollPendingRun exHead [exGoodEnv]).1 ∧
      ((exPending, exPendingSU).1.parent_hash = exHead.block_hash ∧
        (exPending, exPendingSU).2.old_root = exHead.state_commitment) :=
  ⟨by decide,
    claim1_pending_event_continuity exHead [exGoodEnv] (exPending, exPendingSU)
      (by decide)⟩

/-- Claim C2: when the gateway returns a continuity-satisfying pending block
`P` and (within the timeout) a continuity-satisfying pending state update
`U`, the class download succeeds and the sink accepts the send, the cycle
publishes exactly one event, carrying exactly `P` and `U`, and the loop
continues with the remaining cycles instead of terminating. -/
theorem claim2_pending_extension_publishes_once (head : Head) (env : CycleEnv)
    (rest : List CycleEnv) (P : PendingBlock) (U : PendingStateUpdate)
    (hb : env.blockResponse = .ok (.pending P))
    (hph : P.parent_hash = head.block_hash)
    (ht : env.stateUpdateResolveSeconds < pendingStateUpdateTimeoutSecs)
    (hs : env.stateUpdateResponse = .ok (.pending U))
    (hor : U.old_root = head.state_commitment)
    (hcd : env.classDownload = .ok ())
    (hsend : env.sendOk = true) :
    pollPendingRun head (env :: rest) =
      ((P, U) :: (pollPendingRun head rest).1,
        (pollPendingRun head rest).2) :=
  run_cons_again_some head env rest (P, U)
    (step_pending_extension head env P U hb hph ht hs hor hcd hsend)

theorem claim2_pending_extension_publishes_once_witness :
    (exGoodEnv.blockResponse = .ok (.pending exPending) ∧
      exPending.parent_hash = exHead.block_hash ∧
      exGoodEnv.stateUpdateResolveSeconds < pendingStateUpdateTimeoutSecs ∧
      exGoodEnv.stateUpdateResponse = .ok (.pending exPendingSU) ∧
      exPendingSU.old_root = exHead.state_commitment ∧
      exGoodEnv.classDownload = .ok () ∧
      exGoodEnv.sendOk = true) ∧
    pollPendingRun exHead (exGoodEnv :: []) =
      ((exPending, exPendingSU) :: (pollPendingRun exHead []).1,
        (pollPendingRun exHead []).2) :=
  ⟨⟨by decide, by decide, by decide, by decide, by decide, by decide, by decide⟩,
    claim2_pending_extension_publishes_once exHead exGoodEnv [] exPending
      exPendingSU (by decide) (by decide) (by decide) (by decide) (by decide)
      (by decide) (by decide)⟩

/-- Claim C3: when the block query returns a full block whose hash equals
`head.block_hash`, the cycle emits no event, does not terminate (it sleeps
and continues the loop), and the state-update query is not reached on that
cycle. -/
theorem claim3_stale_echo_continues (head : Head) (env : CycleEnv) (b : Block)
    (rest : List CycleEnv)
    (hb : env.blockResponse = .ok (.block b))
    (hh : b.block_hash = head.block_hash) :
    pollPendingStep head env = .again none ∧
      cycleQueriesStateUpdate head env = false ∧
      pollPendingRun head (env :: rest) = pollPendingRun head rest := by
  have hstep : pollPendingStep head env = .again none := by
    simp [pollPendingStep, hb, hh]
  exact ⟨hstep, by simp [cycleQueriesStateUpdate, hb],
    run_cons_again_none head env rest hstep⟩

theorem claim3_stale_echo_continues_witness :
    (exEchoEnv.blockResponse = .ok (.block exEchoBlock) ∧
      exEchoBlock.block_hash = exHead.block_hash) ∧
    (pollPendingStep exHead exEchoEnv = .again none ∧
      cycleQueriesStateUpdate exHead exEchoEnv = false ∧
      pollPendingRun exHead (exEchoEnv :: []) = pollPendingRun exHead []) :=
  ⟨⟨by decide, by decide⟩,
    claim3_stale_echo_continues exHead exEchoEnv exEchoBlock []
      (by decide) (by decide)⟩

/-- Claim C4: the state-update query is bounded by a fixed 3-minute
(180-second) timeout; when the timeout elapses before the query resolves the
cycle terminates with `Ok (none, none)` (not an error), whereas when the
query resolves with a gateway error the cycle terminates with `Err`. -/
theorem claim4_state_update_timeout (head : Head) (env env2 : CycleEnv)
    (P P2 : PendingBlock) (e : GatewayError)
    (hb : env.blockResponse = .ok (.pending P))
    (hph : P.parent_hash = head.block_hash)
    (ht : pendingStateUpdateTimeoutSecs ≤ env.stateUpdateResolveSeconds)
    (hb2 : env2.blockResponse = .ok (.pending P2))
    (hph2 : P2.parent_hash = head.block_hash)
    (ht2 : env2.stateUpdateResolveSeconds < pendingStateUpdateTimeoutSecs)
    (hs2 : env2.stateUpdateResponse = .error e) :
    pendingStateUpdateTimeoutSecs = 180 ∧
      pollPendingStep head env = .done (none, none) ∧
      pollPendingStep head env2 = .fail (.downloadingPendingStateUpdate e) := by
  refine ⟨rfl, ?_, ?_⟩
  · simp [pollPendingStep, hb, hph, ht]
  · have ht2' : ¬ pendingStateUpdateTimeoutSecs ≤ env2.stateUpdateResolveSeconds :=
      Nat.not_le.mpr ht2
    simp [pollPendingStep, hb2, hph2, ht2', hs2]

theorem claim4_state_update_timeout_witness :
    (exTimeoutEnv.blockResponse = .ok (.pending exPending) ∧
      exPending.parent_hash = exHead.block_hash ∧
      pendingStateUpdateTimeoutSecs ≤ exTimeoutEnv.stateUpdateResolveSeconds ∧
      exGatewayErrEnv.blockResponse = .ok (.pending exPending) ∧
      exGatewayErrEnv.stateUpdateResolveSeconds < pendingStateUpdateTimeoutSecs ∧
      exGatewayErrEnv.stateUpdateResponse = .error "boom") ∧
    (pendingStateUpdateTimeoutSecs = 180 ∧
      pollPendingStep exHead exTimeoutEnv = .done (none, none) ∧
      pollPendingStep exHead exGatewayErrEnv =
        .fail (.downloadingPendingStateUpdate "boom")) :=
  ⟨⟨by decide, by decide, by decide, by decide, by decide, by decide⟩,
    claim4_state_update_timeout exHead exTimeoutEnv exGatewayErrEnv exPending
      exPending "boom" (by decide) (by decide) (by decide) (by decide)
      (by decide) (by decide) (by decide)⟩

/-- Claim C5: a pending block whose parent hash differs from
`head.block_hash` makes the cycle terminate with `Ok (none, none)` and no
event; likewise a pending state update (received after a
continuity-satisfying pending block) whose old root differs from
`head.state_commitment`. -/
theorem claim5_discontinuity_exits (head : Head) (env1 env2 : CycleEnv)
    (P1 P2 : PendingBlock) (U : PendingStateUpdate)
    (rest1 rest2 : List CycleEnv)
    (hb1 : env1.blockResponse = .ok (.pending P1))
    (hph1 : P1.parent_hash ≠ head.block_hash)
    (hb2 : env2.blockResponse = .ok (.pending P2))
    (hph2 : P2.parent_hash = head.block_hash)
    (ht2 : env2.stateUpdateResolveSeconds < pendingStateUpdateTimeoutSecs)
    (hs2 : env2.stateUpdateResponse = .ok (.pending U))
    (hor : U.old_root ≠ head.state_commitment) :
    pollPendingRun head (env1 :: rest1) = ([], some (.ok (none, none))) ∧
      pollPendingRun head (env2 :: rest2) = ([], some (.ok (none, none))) := by
  constructor
  · exact run_cons_done head env1 rest1 (none, none)
      (by simp [pollPendingStep, hb1, hph1])
  · have ht2' : ¬ pendingStateUpdateTimeoutSecs ≤ env2.stateUpdateResolveSeconds :=
      Nat.not_le.mpr ht2
    exact run_cons_done head env2 rest2 (none, none)
      (by simp [pollPendingStep, hb2, hph2, ht2', hs2, hor])

theorem claim5_discontinuity_exits_witness :
    (exMismatchBlockEnv.blockResponse = .ok (.pending ⟨9, none⟩) ∧
      (9 : Nat) ≠ exHead.block_hash ∧
      exMismatchRootEnv.blockResponse = .ok (.pending exPending) ∧
      exPending.parent_hash = exHead.block_hash ∧
      exMismatchRootEnv.stateUpdateResolveSeconds < pendingStateUpdateTimeoutSecs ∧
      exMismatchRootEnv.stateUpdateResponse = .ok (.pending ⟨9, exDiff⟩) ∧
      (9 : Nat) ≠ exHead.state_commitment) ∧
    (pollPendingRun exHead (exMismatchBlockEnv :: []) =
        ([], some (.ok (none, none))) ∧
      pollPendingRun exHead (exMismatchRootEnv :: []) =
        ([], some (.ok (none, none)))) :=
  ⟨⟨by decide, by decide, by decide, by decide, by decide, by decide, by decide⟩,
    claim5_discontinuity_exits exHead exMismatchBlockEnv exMismatchRootEnv
      ⟨9, none⟩ exPending ⟨9, exDiff⟩ [] [] (by decide) (by decide) (by decide)
      (by decide) (by decide) (by decide) (by decide)⟩

/-- Claim C6: a full block `B` with a hash other than `head.block_hash`
terminates the cycle with `Ok (some B, none)`; a full state update `S`
received after a continuity-satisfying pending block terminates the cycle
with `Ok (none, some S)`; in both cases no event is emitted. -/
theorem claim6_full_results_exit (head : Head) (env1 env2 : CycleEnv)
    (b : Block) (P : PendingBlock) (s : StateUpdate)
    (rest1 rest2 : List CycleEnv)
    (hb1 : env1.blockResponse = .ok (.block b))
    (hh1 : b.block_hash ≠ head.block_hash)
    (hb2 : env2.blockResponse = .ok (.pending P))
    (hph2 : P.parent_hash = head.block_hash)
    (ht2 : env2.stateUpdateResolveSeconds < pendingStateUpdateTimeoutSecs)
    (hs2 : env2.stateUpdateResponse = .ok (.stateUpdate s)) :
    pollPendingRun head (env1 :: rest1) = ([], some (.ok (some b, none))) ∧
      pollPendingRun head (env2 :: rest2) = ([], some (.ok (none, some s))) := by
  constructor
  · exact run_cons_done head env1 rest1 (some b, none)
      (by simp [pollPendingStep, hb1, hh1])
  · have ht2' : ¬ pendingStateUpdateTimeoutSecs ≤ env2.stateUpdateResolveSeconds :=
      Nat.not_le.mpr ht2
    exact run_cons_done head env2 rest2 (none, some s)
      (by simp [pollPendingStep, hb2, hph2, ht2', hs2])

theorem claim6_full_results_exit_witness :
    (exNewBlockEnv.blockResponse = .ok (.block exFullBlock) ∧
      exFullBlock.block_hash ≠ exHead.block_hash ∧
      exFullSUEnv.blockResponse = .ok (.pending exPending) ∧
      exPending.parent_hash = exHead.block_hash ∧
      exFullSUEnv.stateUpdateResolveSeconds < pendingStateUpdateTimeoutSecs ∧
      exFullSUEnv.stateUpdateResponse = .ok (.stateUpdate exFullSU)) ∧
    (pollPendingRun exHead (exNewBlockEnv :: []) =
        ([], some (.ok (some exFullBlock, none))) ∧
      pollPendingRun exHead (exFullSUEnv :: []) =
        ([], some (.ok (none, some exFullSU)))) :=
  ⟨⟨by decide, by decide, by decide, by decide, by decide, by decide⟩,
    claim6_full_results_exit exHead exNewBlockEnv exFullSUEnv exFullBlock
      exPending exFullSU [] [] (by decide) (by decide) (by decide) (by decide)
      (by decide) (by decide)⟩

/-- Claim C7: when the class-download step fails the cycle terminates with
`Err` and publishes no event, and in general the `tx_event.send` site is
reached only after the class download has returned successfully. -/
theorem claim7_class_download_failure (head : Head) (env : CycleEnv)
    (P : PendingBlock) (U : PendingStateUpdate) (e : String)
    (rest : List CycleEnv)
    (hb : env.blockResponse = .ok (.pending P))
    (hph : P.parent_hash = head.block_hash)
    (ht : env.stateUpdateResolveSeconds < pendingStateUpdateTimeoutSecs)
    (hs : env.stateUpdateResponse = .ok (.pending U))
    (hor : U.old_root = head.state_commitment)
    (hcd : env.classDownload = .error e) :
    pollPendingRun head (env :: rest) =
        ([], some (.error (.handlingNewlyDeclaredClasses e))) ∧
      cycleReachesSend head env = false ∧
      ∀ env2 : CycleEnv, cycleReachesSend head env2 = true →
        env2.classDownload = .ok () := by
  have ht' : ¬ pendingStateUpdateTimeoutSecs ≤ env.stateUpdateResolveSeconds :=
    Nat.not_le.mpr ht
  refine ⟨?_, ?_, ?_⟩
  · exact run_cons_fail head env rest (.handlingNewlyDeclaredClasses e)
      (by simp [pollPendingStep, hb, hph, ht', hs, hor, hcd])
  · simp [cycleReachesSend, hb, hs, hcd]
  · intro env2 h2
    obtain ⟨br2, rt2, sr2, cd2, so2⟩ := env2
    rcases br2 with e3 | mb
    · simp [cycleReachesSend] at h2
    rcases mb with b | p
    · simp [cycleReachesSend] at h2
    rcases sr2 with e4 | ms
    · simp [cycleReachesSend] at h2
    rcases ms with s | psu
    · simp [cycleReachesSend] at h2
    rcases cd2 with e5 | u
    · simp [cycleReachesSend] at h2
    · cases u; rfl

theorem claim7_class_download_failure_witness :
    (exClassFailEnv.blockResponse = .ok (.pending exPending) ∧
      exPending.parent_hash = exHead.block_hash ∧
      exClassFailEnv.stateUpdateResolveSeconds < pendingStateUpdateTimeoutSecs ∧
      exClassFailEnv.stateUpdateResponse = .ok (.pending exPendingSU) ∧
      exPendingSU.old_root = exHead.state_commitment ∧
      exClassFailEnv.classDownload = .error "class fetch failed") ∧
    (pollPendingRun exHead (exClassFailEnv :: []) =
        ([], some (.error (.handlingNewlyDeclaredClasses "class fetch failed"))) ∧
      cycleReachesSend exHead exClassFailEnv = false ∧
      ∀ env2 : CycleEnv, cycleReachesSend exHead env2 = true →
        env2.classDownload = .ok ()) :=
  ⟨⟨by decide, by decide, by decide, by decide, by decide, by decide⟩,
    claim7_class_download_failure exHead exClassFailEnv exPending exPendingSU
      "class fetch failed" [] (by decide) (by decide) (by decide) (by decide)
      (by decide) (by decide)⟩

/-- Claim C8: when the event channel is closed (send fails) on a cycle that
would publish, the cycle terminates with `Err`; and after any terminal
outcome (`done` or `fail`) the run publishes no further event, whatever the
later cycles would have offered. -/
theorem claim8_channel_closed_fatal (head : Head) (env : CycleEnv)
    (P : PendingBlock) (U : PendingStateUpdate)
    (hb : env.blockResponse = .ok (.pending P))
    (hph : P.parent_hash = head.block_hash)
    (ht : env.stateUpdateResolveSeconds < pendingStateUpdateTimeoutSecs)
    (hs : env.stateUpdateResponse = .ok (.pending U))
    (hor : U.old_root = head.state_commitment)
    (hcd : env.classDownload = .ok ())
    (hsend : env.sendOk = false) :
    pollPendingStep head env = .fail .eventChannelClosed ∧
      (∀ (env2 : CycleEnv) (e : PollError) (rest : List CycleEnv),
        pollPendingStep head env2 = .fail e →
        pollPendingRun head (env2 :: rest) = ([], some (.error e))) ∧
      (∀ (env3 : CycleEnv) (r : Option Block × Option StateUpdate)
          (rest : List CycleEnv),
        pollPendingStep head env3 = .done r →
        pollPendingRun head (env3 :: rest) = ([], some (.ok r))) := by
  have ht' : ¬ pendingStateUpdateTimeoutSecs ≤ env.stateUpdateResolveSeconds :=
    Nat.not_le.mpr ht
  refine ⟨?_, ?_, ?_⟩
  · simp [pollPendingStep, hb, hph, ht', hs, hor, hcd, hsend]
  · intro env2 e rest h2
    exact run_cons_fail head env2 rest e h2
  · intro env3 r rest h3
    exact run_cons_done head env3 rest r h3

theorem claim8_channel_closed_fatal_witness :
    (exClosedEnv.blockResponse = .ok (.pending exPending) ∧
      exPending.parent_hash = exHead.block_hash ∧
      exClosedEnv.stateUpdateResolveSeconds < pendingStateUpdateTimeoutSecs ∧
      exClosedEnv.stateUpdateResponse = .ok (.pending exPendingSU) ∧
      exPendingSU.old_root = exHead.state_commitment ∧
      exClosedEnv.classDownload = .ok () ∧
      exClosedEnv.sendOk = false) ∧
    pollPendingStep exHead exClosedEnv = .fail .eventChannelClosed :=
  ⟨⟨by decide, by decide, by decide, by decide, by decide, by decide, by decide⟩,
    (claim8_channel_closed_fatal exHead exClosedEnv exPending exPendingSU
      (by decide) (by decide) (by decide) (by decide) (by decide) (by decide)
      (by decide)).1⟩

/-- Claim C9: the continuity checks of every cycle compare against the same
caller-supplied head: a cycle environment that publishes an extension keeps
publishing the very same event on every later identical cycle, re-checked
against the original head, with no termination. -/
theorem claim9_head_immutable (head : Head) (env : CycleEnv)
    (ev : PendingBlock × PendingStateUpdate)
    (h : pollPendingStep head env = .again (some ev)) (n : Nat) :
    pollPendingRun head (List.replicate n env) = (List.replicate n ev, none) := by
  induction n with
  | zero => rfl
  | succ k ih =>
    rw [List.replicate_succ, run_cons_again_some head env _ ev h, ih]
    simp [List.replicate_succ]

theorem claim9_head_immutable_witness :
    pollPendingStep exHead exGoodEnv = .again (some (exPending, exPendingSU)) ∧
      pollPendingRun exHead (List.replicate 3 exGoodEnv) =
        (List.replicate 3 (exPending, exPendingSU), none) :=
  ⟨by decide,
    claim9_head_immutable exHead exGoodEnv (exPending, exPendingSU)
      (by decide) 3⟩

/-- Claim C10: `poll_pending` never returns `Ok (some block, some
state_update)`: every `Ok` result has at most one `some` component. -/
theorem claim10_ok_at_most_one_some (head : Head) (envs : List CycleEnv)
    (res : Option Block × Option StateUpdate)
    (h : (pollPendingRun head envs).2 = some (.ok res)) :
    res.1 = none ∨ res.2 = none :=
  run_ok_shape head envs res h

theorem claim10_ok_at_most_one_some_witness :
    (pollPendingRun exHead [exNewBlockEnv]).2 =
        some (.ok (some exFullBlock, none)) ∧
      (((some exFullBlock, none) : Option Block × Option StateUpdate).1 = none ∨
        ((some exFullBlock, none) : Option Block × Option StateUpdate).2 = none) :=
  ⟨by decide,
    claim10_ok_at_most_one_some exHead [exNewBlockEnv]
      (some exFullBlock, none) (by decide)⟩

end PendingSync
